import Mathlib

/-!
Shallow embedding of the storefront core of `tienda` (models.py, views.py):
the data store (products, users, orders, order lines), the session cart
views, the checkout initiator and the Stripe webhook reconciliation
handler, together with proofs about them.

Modelling conventions:
- Django model rows become structures; `DecimalField` amounts are `Rat`,
  Python integers are `Int` (Python ints are unbounded and the webhook's
  stock arithmetic has no lower guard), primary keys are `Nat`.
- The persistent store is a `Store` record of lists; `Objects.create`
  appends.  A store-level constraint is embedded exactly where models.py
  declares one: `Pedido.id_transaccion_pago` (models.py line 134)
  declares no `unique=True`, so its insert is unconditional.
- The session cart is an association list `String × Int` in insertion
  order, mirroring the Python session dict `{producto_id: {'cantidad': n}}`
  whose keys are strings.
- Django resolves a string pk against an integer id, hence lookups
  compare `toString p.id` with the cart key.
- `stripe_webhook` never reaches its order-creation code: views.py line
  220 reads `get_object_or_404(User, id=user_id)`, but `User` is not
  imported anywhere in views.py, so every `checkout.session.completed`
  event raises `NameError` there — a server error (500) with no store
  write.  Lines 222-247 (idempotency check, `Pedido.objects.create`,
  order lines, stock decrement) are unreachable dead code and are not
  modelled as reachable behavior; the embedding maps the completed
  branch to that server error with the store unchanged.
- The Stripe metadata blob is modelled at the JSON-value level (`Jval`);
  `json.dumps` / `json.loads` of the cart become `dumpsCart` / `loadsCart`
  (the metadata extraction at lines 218-219 runs before the faulting
  line 220).
- External effects are parameters: signature verification is a
  `VerifyOutcome`, the gateway call a `GatewayOutcome`.
-/

namespace Tienda

/-- A row of `Producto` (models.py).  `stock` is declared
`PositiveIntegerField`, but the webhook mutates it by plain Python
integer arithmetic with no guard, so it is embedded as `Int`. -/
structure Producto where
  id : Nat
  nombre : String
  precio : Rat
  stock : Int
  disponible : Bool
  imagen : String
  categoria : Option Nat
deriving DecidableEq

/-- A row of `Pedido` (models.py).  `id_transaccion_pago` carries no
uniqueness constraint in models.py. -/
structure Pedido where
  id : Nat
  usuario : Nat
  estado : String
  total : Rat
  direccion_envio : String
  id_transaccion_pago : String
deriving DecidableEq

/-- A row of `DetallePedido` (models.py): one order line. -/
structure DetallePedido where
  pedido : Nat
  producto : Nat
  cantidad : Int
  precio_unitario : Rat
deriving DecidableEq

/-- The persistent data store: users, catalog, orders and order lines,
plus the next fresh order primary key. -/
structure Store where
  usuarios : List Nat
  productos : List Producto
  pedidos : List Pedido
  detalles : List DetallePedido
  nextPedidoId : Nat
deriving DecidableEq

/-- The session cart: product id (a string key, as in the session dict)
to quantity, in insertion order. -/
abbrev Carrito := List (String × Int)

/-- `carrito[producto_id]['cantidad']` / membership test on the session
dict. -/
def lookupCarrito (c : Carrito) (pid : String) : Option Int :=
  (c.find? (fun kv => kv.1 == pid)).map (fun kv => kv.2)

/-- `get_object_or_404(Producto, id=producto_id)`: Django coerces the
string key against the integer primary key. -/
def findProducto (productos : List Producto) (pid : String) : Option Producto :=
  productos.find? (fun p => toString p.id == pid)

/-- Response of `agregar_al_carrito` (views.py lines 89-113). -/
inductive AgregarResponse where
  | ok (mensaje : String) (totalItems : Int)
  | clientError (msg : String)
  | notFound
deriving DecidableEq

/-- `agregar_al_carrito` (views.py lines 89-113): resolve the product
(404 when missing), refuse when stock ≤ 0, increment by one when the
product is already in the cart provided stock exceeds the present
quantity, otherwise insert the product with quantity 1. -/
def agregar_al_carrito (productos : List Producto) (carrito : Carrito)
    (pid : String) : AgregarResponse × Carrito :=
  match findProducto productos pid with
  | none => (.notFound, carrito)
  | some producto =>
    if producto.stock ≤ 0 then
      (.clientError "Producto sin stock", carrito)
    else
      match lookupCarrito carrito pid with
      | some cantidad =>
        if producto.stock > cantidad then
          let c := carrito.map (fun kv => if kv.1 == pid then (kv.1, kv.2 + 1) else kv)
          (.ok (producto.nombre ++ " añadido al carrito.")
            ((c.map (fun kv => kv.2)).sum), c)
        else
          (.clientError "No hay suficiente stock", carrito)
      | none =>
        let c := carrito ++ [(pid, 1)]
        (.ok (producto.nombre ++ " añadido al carrito.")
          ((c.map (fun kv => kv.2)).sum), c)

/-- Response of `actualizar_carrito` (views.py lines 116-136). -/
inductive ActualizarResponse where
  | ok (mensaje : String)
  | notFound (msg : String)
deriving DecidableEq

/-- `actualizar_carrito` (views.py lines 116-136): when the product is in
the cart, a positive quantity overwrites the entry and a non-positive one
deletes it; otherwise 404.  No product or stock is consulted. -/
def actualizar_carrito (carrito : Carrito) (pid : String) (cantidad : Int) :
    ActualizarResponse × Carrito :=
  if (lookupCarrito carrito pid).isSome then
    if cantidad > 0 then
      (.ok "Carrito actualizado.",
        carrito.map (fun kv => if kv.1 == pid then (kv.1, cantidad) else kv))
    else
      (.ok "Carrito actualizado.", carrito.filter (fun kv => kv.1 != pid))
  else
    (.notFound "Producto no encontrado en el carrito", carrito)

/-- A JSON value, the level at which the Stripe metadata blob is
modelled. -/
inductive Jval where
  | jint (n : Int)
  | jstr (s : String)
  | jobj (fields : List (String × Jval))

/-- `json.dumps(carrito)` at checkout initiation (views.py line 177):
the session dict serialises to an object mapping each product id to
`{"cantidad": n}`. -/
def dumpsCart (c : Carrito) : Jval :=
  .jobj (c.map (fun kv => (kv.1, .jobj [("cantidad", .jint kv.2)])))

/-- One entry of the decoded cart object. -/
def loadsEntry : String × Jval → Option (String × Int)
  | (k, .jobj [("cantidad", .jint n)]) => some (k, n)
  | _ => none

/-- All entries of the decoded cart object, in order. -/
def loadsEntries : List (String × Jval) → Option Carrito
  | [] => some []
  | f :: rest =>
    match loadsEntry f, loadsEntries rest with
    | some e, some es => some (e :: es)
    | _, _ => none

/-- `json.loads(session.metadata['carrito'])` at the webhook (views.py
line 219), together with the shape the materialization loop consumes. -/
def loadsCart : Jval → Option Carrito
  | .jobj fields => loadsEntries fields
  | _ => none

/-- The metadata blob attached to the gateway session (views.py lines
175-178): the initiating user's id and the serialised cart. -/
structure Metadata where
  user_id : Nat
  carrito : Jval

/-- Decoding the metadata at the webhook (views.py lines 218-219). -/
def decodeMetadata (m : Metadata) : Option (Nat × Carrito) :=
  (loadsCart m.carrito).map (fun c => (m.user_id, c))

/-- A Stripe line item as built by `crear_sesion_pago` (views.py lines
156-166). -/
structure LineItem where
  name : String
  unit_amount : Int
  quantity : Int
  image : String
deriving DecidableEq

/-- Python `int()` truncation toward zero on a rational. -/
def pyInt (q : Rat) : Int := q.num / (q.den : Int)

/-- The line-item loop of `crear_sesion_pago` (views.py lines 153-166):
each cart entry re-reads the product (404 when missing) and records its
current price in cents. -/
def buildLineItems (productos : List Producto) : Carrito → Option (List LineItem)
  | [] => some []
  | kv :: rest =>
    match findProducto productos kv.1 with
    | none => none
    | some p =>
      (buildLineItems productos rest).map
        (fun ls =>
          { name := p.nombre, unit_amount := pyInt (p.precio * 100),
            quantity := kv.2, image := p.imagen } :: ls)

/-- Response of `crear_sesion_pago` (views.py lines 143-183). -/
inductive CheckoutResponse where
  | emptyCart
  | notFound
  | redirectToGateway (url : String)
  | gatewayError (msg : String)
deriving DecidableEq

/-- Outcome of the external `stripe.checkout.Session.create` call: a
redirect URL, or an exception message. -/
inductive GatewayOutcome where
  | ok (url : String)
  | exn (msg : String)
deriving DecidableEq

/-- `crear_sesion_pago` (views.py lines 143-183): refuse an empty cart,
build the line items, attach the metadata blob to the gateway session and
redirect; an exception from the gateway surfaces as a user-facing error.
The view performs no write: the store and the session cart are returned
as received on every path. -/
def crear_sesion_pago (s : Store) (carrito : Carrito) (userId : Nat)
    (gw : GatewayOutcome) :
    CheckoutResponse × Option Metadata × Store × Carrito :=
  if carrito.isEmpty then (.emptyCart, none, s, carrito)
  else
    match buildLineItems s.productos carrito with
    | none => (.notFound, none, s, carrito)
    | some _ =>
      match gw with
      | .ok url =>
        (.redirectToGateway url,
          some { user_id := userId, carrito := dumpsCart carrito }, s, carrito)
      | .exn msg => (.gatewayError msg, none, s, carrito)

/-- The `data.object` of a `checkout.session.completed` event: session
id, confirmed amount in cents, and the echoed metadata. -/
structure StripeSession where
  id : String
  amount_total : Int
  metadata : Metadata

/-- A verified Stripe event: its type string and its session object. -/
structure StripeEvent where
  type : String
  session : StripeSession

/-- Outcome of `stripe.Webhook.construct_event` (views.py lines 207-212):
parse failure, signature failure, or a verified event. -/
inductive VerifyOutcome where
  | invalidPayload
  | invalidSignature
  | ok (ev : StripeEvent)

/-- HTTP status of the webhook response. -/
inductive Status where
  | s200
  | s400
  | s404
  | s500
deriving DecidableEq

/-- `Pedido.objects.create(...)` (views.py lines 227-232): unconditional
insert with a fresh primary key — models.py line 134 places no uniqueness
constraint on `id_transaccion_pago`, so a duplicate external id is not
rejected by the store. -/
def createPedido (s : Store) (usuario : Nat) (total : Rat) (estado : String)
    (idTrans : String) : Pedido × Store :=
  let p : Pedido :=
    { id := s.nextPedidoId, usuario := usuario, estado := estado, total := total,
      direccion_envio := "", id_transaccion_pago := idTrans }
  (p, { s with pedidos := s.pedidos ++ [p], nextPedidoId := s.nextPedidoId + 1 })

/-- `stripe_webhook` (views.py lines 196-263): 400 on a payload or
signature failure; any event other than `checkout.session.completed` is
acknowledged with 200 and ignored.  A completed event extracts the
metadata (lines 218-219) and then executes
`get_object_or_404(User, id=user_id)` (line 220) — but `User` is never
imported in views.py, so this line raises `NameError` on every completed
event: Django answers with a server error (500) and no store write has
happened.  The idempotency check and the materialization loop (lines
222-247) are unreachable dead code. -/
def stripe_webhook (s : Store) (v : VerifyOutcome) : Status × Store :=
  match v with
  | .invalidPayload => (.s400, s)
  | .invalidSignature => (.s400, s)
  | .ok ev =>
    if ev.type == "checkout.session.completed" then (.s500, s)
    else (.s200, s)

/-! ### Session-cart lemmas -/

theorem lookupCarrito_update (c : Carrito) (pid : String) (f : Int → Int) :
    lookupCarrito (c.map (fun kv => if kv.1 == pid then (kv.1, f kv.2) else kv)) pid
      = (lookupCarrito c pid).map f := by
  unfold lookupCarrito
  rw [List.find?_map]
  have hpred : ((fun kv : String × Int => kv.1 == pid) ∘
      (fun kv : String × Int => if kv.1 == pid then (kv.1, f kv.2) else kv))
      = (fun kv : String × Int => kv.1 == pid) := by
    funext kv
    by_cases h : kv.1 = pid <;> simp [h]
  rw [hpred]
  cases h : c.find? (fun kv => kv.1 == pid) with
  | none => simp
  | some kv =>
    have hk : kv.1 = pid := by simpa using List.find?_some h
    simp [hk]

theorem lookupCarrito_update_ne (c : Carrito) (pid q : String) (f : Int → Int)
    (hq : q ≠ pid) :
    lookupCarrito (c.map (fun kv => if kv.1 == pid then (kv.1, f kv.2) else kv)) q
      = lookupCarrito c q := by
  unfold lookupCarrito
  rw [List.find?_map]
  have hpred : ((fun kv : String × Int => kv.1 == q) ∘
      (fun kv : String × Int => if kv.1 == pid then (kv.1, f kv.2) else kv))
      = (fun kv : String × Int => kv.1 == q) := by
    funext kv
    by_cases h : kv.1 = pid <;> simp [h]
  rw [hpred]
  cases h : c.find? (fun kv => kv.1 == q) with
  | none => simp
  | some kv =>
    have hk : kv.1 = q := by simpa using List.find?_some h
    have hne : kv.1 ≠ pid := by
      rw [hk]
      exact hq
    simp [hne]

theorem lookupCarrito_filter_self (c : Carrito) (pid : String) :
    lookupCarrito (c.filter (fun kv => kv.1 != pid)) pid = none := by
  have h : (c.filter (fun kv => kv.1 != pid)).find? (fun kv => kv.1 == pid) = none := by
    rw [List.find?_eq_none]
    intro x hx
    have hne := (List.mem_filter.mp hx).2
    simpa using hne
  simp [lookupCarrito, h]

theorem lookupCarrito_filter_ne (c : Carrito) (pid q : String) (hq : q ≠ pid) :
    lookupCarrito (c.filter (fun kv => kv.1 != pid)) q = lookupCarrito c q := by
  unfold lookupCarrito
  congr 1
  induction c with
  | nil => rfl
  | cons kv rest ih =>
    by_cases h : kv.1 = pid
    · have h2 : (kv.1 == q) = false := by
        have : ¬ kv.1 = q := by
          rw [h]
          exact fun he => hq he.symm
        simpa using this
      have e1 : List.filter (fun kv => kv.1 != pid) (kv :: rest)
          = List.filter (fun kv => kv.1 != pid) rest := by
        simp [List.filter_cons, h]
      rw [e1, List.find?_cons, h2, ih]
    · have e1 : List.filter (fun kv => kv.1 != pid) (kv :: rest)
          = kv :: List.filter (fun kv => kv.1 != pid) rest := by
        simp [List.filter_cons, h]
      by_cases h2 : kv.1 = q
      · have hp : (kv.1 == q) = true := by simpa using h2
        rw [e1, List.find?_cons, List.find?_cons, hp]
      · have hp : (kv.1 == q) = false := by simpa using h2
        rw [e1, List.find?_cons, List.find?_cons, hp, ih]

theorem lookupCarrito_append_self (c : Carrito) (pid : String) (v : Int)
    (h : lookupCarrito c pid = none) :
    lookupCarrito (c ++ [(pid, v)]) pid = some v := by
  unfold lookupCarrito at h ⊢
  have hf : c.find? (fun kv => kv.1 == pid) = none := by
    cases hc : c.find? (fun kv => kv.1 == pid) <;> simp [hc] at h ⊢
  rw [List.find?_append, hf]
  simp

theorem lookupCarrito_append_ne (c : Carrito) (pid q : String) (v : Int)
    (hq : q ≠ pid) :
    lookupCarrito (c ++ [(pid, v)]) q = lookupCarrito c q := by
  unfold lookupCarrito
  rw [List.find?_append]
  have h1 : [((pid : String), v)].find? (fun kv => kv.1 == q) = none := by
    have : ¬ pid = q := fun he => hq he.symm
    simp [this]
  cases h : c.find? (fun kv => kv.1 == q) <;> simp [h, h1]

/-- C6: for every session cart and existing product, `agregar_al_carrito`
fails with the out-of-stock client error and leaves the cart unchanged
when the product's stock is 0; with positive stock, when the product is
already in the cart it increments that entry's quantity by exactly 1
(other entries unchanged), failing with the insufficient-stock client
error and an unchanged cart when the incremented quantity would exceed
the current stock; and when the product is not yet in the cart it
appends the entry with quantity exactly 1. -/
theorem agregar_al_carrito_spec (productos : List Producto) (carrito : Carrito)
    (pid : String) (p : Producto) (hp : findProducto productos pid = some p) :
    (p.stock = 0 →
      agregar_al_carrito productos carrito pid
        = (.clientError "Producto sin stock", carrito))
    ∧ (0 < p.stock → ∀ cantidad, lookupCarrito carrito pid = some cantidad →
        (cantidad + 1 ≤ p.stock →
          agregar_al_carrito productos carrito pid
            = (.ok (p.nombre ++ " añadido al carrito.")
                (((carrito.map (fun kv => if kv.1 == pid then (kv.1, kv.2 + 1) else kv)).map
                  (fun kv => kv.2)).sum),
               carrito.map (fun kv => if kv.1 == pid then (kv.1, kv.2 + 1) else kv))
          ∧ lookupCarrito
              (carrito.map (fun kv => if kv.1 == pid then (kv.1, kv.2 + 1) else kv)) pid
              = some (cantidad + 1)
          ∧ ∀ q, q ≠ pid →
              lookupCarrito
                (carrito.map (fun kv => if kv.1 == pid then (kv.1, kv.2 + 1) else kv)) q
                = lookupCarrito carrito q)
        ∧ (p.stock < cantidad + 1 →
          agregar_al_carrito productos carrito pid
            = (.clientError "No hay suficiente stock", carrito)))
    ∧ (0 < p.stock → lookupCarrito carrito pid = none →
        agregar_al_carrito productos carrito pid
          = (.ok (p.nombre ++ " añadido al carrito.")
              (((carrito ++ [(pid, 1)]).map (fun kv : String × Int => kv.2)).sum),
             carrito ++ [(pid, 1)])
        ∧ lookupCarrito (carrito ++ [(pid, 1)]) pid = some 1) := by
  unfold agregar_al_carrito
  rw [hp]
  refine ⟨?_, ?_, ?_⟩
  · intro h0
    have hle : p.stock ≤ 0 := le_of_eq h0
    simp [hle]
  · intro hpos cantidad hc
    have hns : ¬ p.stock ≤ 0 := not_le.mpr hpos
    refine ⟨?_, ?_⟩
    · intro hle
      have hgt : p.stock > cantidad := by omega
      refine ⟨by simp [hns, hc, hgt], ?_, ?_⟩
      · have h := lookupCarrito_update carrito pid (fun n => n + 1)
        rw [hc] at h
        simpa using h
      · intro q hq
        exact lookupCarrito_update_ne carrito pid q (fun n => n + 1) hq
    · intro hlt
      have hgt : ¬ p.stock > cantidad := by omega
      simp [hns, hc, hgt]
  · intro hpos hc
    have hns : ¬ p.stock ≤ 0 := not_le.mpr hpos
    exact ⟨by simp [hns, hc], lookupCarrito_append_self carrito pid 1 hc⟩

/-- Concrete instance of C6: product 1 with stock 3, cart holding entry
("1", 1): the add succeeds and the entry becomes 2; cart [("2", 3)]:
the entry ("1", 1) is appended. -/
theorem agregar_al_carrito_spec_witness :
    agregar_al_carrito
        [{ id := 1, nombre := "A", precio := 10, stock := 3, disponible := true,
           imagen := "a.png", categoria := none }]
        [("1", (1 : Int))] "1"
      = (.ok ("A" ++ " añadido al carrito.")
          ((([(("1" : String), (1 : Int))].map
            (fun kv => if kv.1 == "1" then (kv.1, kv.2 + 1) else kv)).map
            (fun kv => kv.2)).sum),
         [(("1" : String), (1 : Int))].map
           (fun kv => if kv.1 == "1" then (kv.1, kv.2 + 1) else kv)) :=
  ((agregar_al_carrito_spec
      [{ id := 1, nombre := "A", precio := 10, stock := 3, disponible := true,
         imagen := "a.png", categoria := none }]
      [("1", (1 : Int))] "1"
      { id := 1, nombre := "A", precio := 10, stock := 3, disponible := true,
        imagen := "a.png", categoria := none }
      (by decide)).2.1 (by decide) 1 (by decide)).1 (by decide) |>.1

/-- Test fixture: product 1, price 10, stock 5. -/
def prodA : Producto :=
  { id := 1, nombre := "A", precio := 10, stock := 5, disponible := true,
    imagen := "a.png", categoria := none }

/-- Test fixture: product 2, price 20, stock 3. -/
def prodB : Producto :=
  { id := 2, nombre := "B", precio := 20, stock := 3, disponible := true,
    imagen := "b.png", categoria := none }

/-- C7: `actualizar_carrito` with a non-positive quantity leaves the cart
without an entry for the product (other entries unchanged); with a
positive quantity it fails with the not-found error and an unchanged cart
when the product is not in the cart, and otherwise overwrites that
entry's quantity with the given value (other entries unchanged).  The
definition consults no catalog and no stock. -/
theorem actualizar_carrito_spec (carrito : Carrito) (pid : String) (cantidad : Int) :
    (cantidad ≤ 0 →
        lookupCarrito (actualizar_carrito carrito pid cantidad).2 pid = none
      ∧ ∀ q, q ≠ pid →
          lookupCarrito (actualizar_carrito carrito pid cantidad).2 q
            = lookupCarrito carrito q)
    ∧ (0 < cantidad → lookupCarrito carrito pid = none →
        actualizar_carrito carrito pid cantidad
          = (.notFound "Producto no encontrado en el carrito", carrito))
    ∧ (0 < cantidad → ∀ c0, lookupCarrito carrito pid = some c0 →
        (actualizar_carrito carrito pid cantidad).1 = .ok "Carrito actualizado."
        ∧ lookupCarrito (actualizar_carrito carrito pid cantidad).2 pid = some cantidad
        ∧ ∀ q, q ≠ pid →
            lookupCarrito (actualizar_carrito carrito pid cantidad).2 q
              = lookupCarrito carrito q) := by
  refine ⟨?_, ?_, ?_⟩
  · intro hle
    have hng : ¬ cantidad > 0 := by omega
    cases hc : lookupCarrito carrito pid with
    | none =>
      have hs : ¬ (lookupCarrito carrito pid).isSome := by simp [hc]
      refine ⟨?_, ?_⟩
      · simp [actualizar_carrito, hs, hc]
      · intro q hq
        simp [actualizar_carrito, hs]
    | some c0 =>
      have hs : (lookupCarrito carrito pid).isSome := by simp [hc]
      refine ⟨?_, ?_⟩
      · simp [actualizar_carrito, hs, hng, lookupCarrito_filter_self]
      · intro q hq
        simp [actualizar_carrito, hs, hng, lookupCarrito_filter_ne carrito pid q hq]
  · intro _ hc
    have hs : ¬ (lookupCarrito carrito pid).isSome := by simp [hc]
    simp [actualizar_carrito, hs]
  · intro hpos c0 hc
    have hs : (lookupCarrito carrito pid).isSome := by simp [hc]
    refine ⟨by simp [actualizar_carrito, hs, hpos], ?_, ?_⟩
    · have h := lookupCarrito_update carrito pid (fun _ => cantidad)
      rw [hc] at h
      simp [actualizar_carrito, hs, hpos]
      simpa using h
    · intro q hq
      have h := lookupCarrito_update_ne carrito pid q (fun _ => cantidad) hq
      simp [actualizar_carrito, hs, hpos]
      simpa using h

/-- Concrete instance of C7: setting product 1 to quantity 4 in the cart
[("1", 2), ("2", 1)] succeeds and overwrites the entry; setting it with
quantity 0 removes it. -/
theorem actualizar_carrito_spec_witness :
    lookupCarrito (actualizar_carrito [("1", 2), ("2", 1)] "1" 4).2 "1" = some 4
    ∧ lookupCarrito (actualizar_carrito [("1", 2), ("2", 1)] "1" 0).2 "1" = none :=
  ⟨(((actualizar_carrito_spec [("1", 2), ("2", 1)] "1" 4).2.2 (by decide) 2
      (by decide)).2).1,
   ((actualizar_carrito_spec [("1", 2), ("2", 1)] "1" 0).1 (by decide)).1⟩

/-- C8: `crear_sesion_pago` fails with the empty-cart error when the
session cart has no entries; on every input it leaves the store (catalog
and order store) and the session cart exactly as received; and when the
gateway call raises, it surfaces the gateway error, again with the cart
untouched. -/
theorem crear_sesion_pago_frame (s : Store) (carrito : Carrito) (userId : Nat)
    (gw : GatewayOutcome) :
    (crear_sesion_pago s carrito userId gw).2.2.1 = s
    ∧ (crear_sesion_pago s carrito userId gw).2.2.2 = carrito
    ∧ (carrito = [] → (crear_sesion_pago s carrito userId gw).1 = .emptyCart)
    ∧ (∀ msg, gw = .exn msg → carrito ≠ [] →
        (buildLineItems s.productos carrito).isSome →
        (crear_sesion_pago s carrito userId gw).1 = .gatewayError msg) := by
  by_cases h : carrito.isEmpty
  · have hnil : carrito = [] := by simpa [List.isEmpty_iff] using h
    subst hnil
    simp [crear_sesion_pago]
  · have hne : ¬ carrito = [] := by simpa [List.isEmpty_iff] using h
    cases hb : buildLineItems s.productos carrito with
    | none => cases gw <;> simp [crear_sesion_pago, h, hb, hne]
    | some li => cases gw <;> simp [crear_sesion_pago, h, hb, hne]

/-- Concrete instance of C8: a failed gateway call on the cart
[("1", 2)] leaves store and cart unchanged and surfaces the error; the
empty cart is refused. -/
theorem crear_sesion_pago_frame_witness :
    (crear_sesion_pago
        { usuarios := [7], productos := [prodA], pedidos := [], detalles := [],
          nextPedidoId := 1 } [("1", 2)] 7 (.exn "boom")).2.2.1
      = { usuarios := [7], productos := [prodA], pedidos := [], detalles := [],
          nextPedidoId := 1 }
    ∧ (crear_sesion_pago
        { usuarios := [7], productos := [prodA], pedidos := [], detalles := [],
          nextPedidoId := 1 } [("1", 2)] 7 (.exn "boom")).2.2.2 = [("1", 2)]
    ∧ (crear_sesion_pago
        { usuarios := [7], productos := [prodA], pedidos := [], detalles := [],
          nextPedidoId := 1 } [("1", 2)] 7 (.exn "boom")).1 = .gatewayError "boom"
    ∧ (crear_sesion_pago
        { usuarios := [7], productos := [prodA], pedidos := [], detalles := [],
          nextPedidoId := 1 } [] 7 (.ok "u")).1 = .emptyCart :=
  ⟨(crear_sesion_pago_frame _ [("1", 2)] 7 (.exn "boom")).1,
   (crear_sesion_pago_frame _ [("1", 2)] 7 (.exn "boom")).2.1,
   (crear_sesion_pago_frame _ [("1", 2)] 7 (.exn "boom")).2.2.2 "boom" rfl
     (by decide) (by decide),
   (crear_sesion_pago_frame _ [] 7 (.ok "u")).2.2.1 rfl⟩

/-! ### Metadata round-trip -/

theorem loadsEntries_map_dumps (c : Carrito) :
    loadsEntries (c.map (fun kv => (kv.1, Jval.jobj [("cantidad", Jval.jint kv.2)])))
      = some c := by
  induction c with
  | nil => rfl
  | cons kv rest ih => simp [loadsEntries, loadsEntry, ih]

theorem loadsCart_dumpsCart (c : Carrito) : loadsCart (dumpsCart c) = some c := by
  simp [loadsCart, dumpsCart, loadsEntries_map_dumps]

/-- C9: the metadata blob a successful checkout initiation attaches to the
gateway session decodes, at the webhook, to exactly the initiating user id
and the exact cart contents: decode after encode is the identity on
(user id, cart). -/
theorem metadata_roundtrip (s : Store) (carrito : Carrito) (userId : Nat)
    (gw : GatewayOutcome) (m : Metadata)
    (h : (crear_sesion_pago s carrito userId gw).2.1 = some m) :
    decodeMetadata m = some (userId, carrito) := by
  unfold crear_sesion_pago at h
  by_cases he : carrito.isEmpty
  · simp [he] at h
  · cases hb : buildLineItems s.productos carrito with
    | none => simp [he, hb] at h
    | some li =>
      cases gw with
      | ok url =>
        simp [he, hb] at h
        rw [← h]
        simp [decodeMetadata, loadsCart_dumpsCart]
      | exn msg => simp [he, hb] at h

/-- Concrete instance of C9: the blob encoded for user 7 with cart
[("1", 2)] decodes back to exactly (7, [("1", 2)]). -/
theorem metadata_roundtrip_witness :
    decodeMetadata { user_id := 7, carrito := dumpsCart [("1", 2)] }
      = some (7, [("1", 2)]) :=
  metadata_roundtrip
    { usuarios := [7], productos := [prodA], pedidos := [], detalles := [],
      nextPedidoId := 1 } [("1", 2)] 7 (.ok "u")
    { user_id := 7, carrito := dumpsCart [("1", 2)] } rfl

/-! ### Webhook lemmas -/

theorem stripe_webhook_completed_500 (s : Store) (ev : StripeEvent)
    (hev : ev.type = "checkout.session.completed") :
    stripe_webhook s (.ok ev) = (.s500, s) := by
  have h1 : (ev.type == "checkout.session.completed") = true := by simpa using hev
  simp [stripe_webhook, h1]

theorem stripe_webhook_store (s : Store) (v : VerifyOutcome) :
    (stripe_webhook s v).2 = s := by
  cases v with
  | invalidPayload => rfl
  | invalidSignature => rfl
  | ok ev =>
    unfold stripe_webhook
    by_cases h : (ev.type == "checkout.session.completed") = true <;> simp [h]

theorem crear_sesion_pago_store (s : Store) (carrito : Carrito) (userId : Nat)
    (gw : GatewayOutcome) : (crear_sesion_pago s carrito userId gw).2.2.1 = s := by
  by_cases h : carrito.isEmpty
  · simp [crear_sesion_pago, h]
  · cases hb : buildLineItems s.productos carrito with
    | none => simp [crear_sesion_pago, h, hb]
    | some li => cases gw <;> simp [crear_sesion_pago, h, hb]

/-- C10 (amended): the handler extracts the metadata and then runs the
user-resolution line before the idempotency check, but that line raises
`NameError` (`User` is unimported in views.py) whether or not the decoded
user exists: the response is a server error — neither a not-found error
nor success — and no store mutation is performed, also when an Order with
the notification's session id already exists, so such a duplicate
delivery is still not acknowledged with success. -/
theorem webhook_resolucion_usuario_falla (s : Store) (ev : StripeEvent)
    (hev : ev.type = "checkout.session.completed") :
    stripe_webhook s (.ok ev) = (.s500, s)
    ∧ (stripe_webhook s (.ok ev)).1 ≠ Status.s200
    ∧ (stripe_webhook s (.ok ev)).1 ≠ Status.s404 := by
  have h := stripe_webhook_completed_500 s ev hev
  refine ⟨h, ?_, ?_⟩ <;> simp [h]

/-- Concrete instance of C10 (amended): with no user 1 in the store, the
completed notification for "cs_10" is answered with the server error and
the store is unchanged. -/
theorem webhook_resolucion_usuario_falla_witness :
    stripe_webhook
        { usuarios := [], productos := [], pedidos := [], detalles := [],
          nextPedidoId := 1 }
        (.ok { type := "checkout.session.completed",
               session := { id := "cs_10", amount_total := 100,
                            metadata := { user_id := 1, carrito := dumpsCart [] } } })
      = (.s500,
         { usuarios := [], productos := [], pedidos := [], detalles := [],
           nextPedidoId := 1 }) :=
  (webhook_resolucion_usuario_falla _ _ rfl).1

/-- Test fixture for the C10 counterexample: a store whose only Order
carries session id "cs_7" and belongs to user 2; user 1 does not exist. -/
def suStore : Store :=
  { usuarios := [2], productos := [],
    pedidos := [{ id := 1, usuario := 2, estado := "En preparación", total := 40,
                  direccion_envio := "", id_transaccion_pago := "cs_7" }],
    detalles := [], nextPedidoId := 2 }

/-- Test fixture for the C10 counterexample: a completed-payment
notification for session "cs_7" whose decoded user id is 1. -/
def suEvento : StripeEvent :=
  { type := "checkout.session.completed",
    session := { id := "cs_7", amount_total := 4000,
                 metadata := { user_id := 1, carrito := dumpsCart [] } } }

/-- Counterexample to C10 as stated: the decoded user 1 does not exist in
`suStore`, yet the handler does not fail with a not-found error — the
user-resolution line raises `NameError` (`User` is unimported), so the
response is the server error 500. -/
theorem webhook_usuario_inexistente_cx :
    (suStore.usuarios.contains suEvento.session.metadata.user_id) = false
    ∧ (suStore.pedidos.any fun p => p.id_transaccion_pago == suEvento.session.id) = true
    ∧ (stripe_webhook suStore (.ok suEvento)).1 = Status.s500
    ∧ ¬ (stripe_webhook suStore (.ok suEvento)).1 = Status.s404 := by
  decide

/-- Test fixture for the C1 counterexample: a store whose only Order
carries session id "cs_9" and belongs to user 1, who exists. -/
def cxStore : Store :=
  { usuarios := [1], productos := [prodA],
    pedidos := [{ id := 1, usuario := 1, estado := "En preparación", total := 10,
                  direccion_envio := "", id_transaccion_pago := "cs_9" }],
    detalles := [], nextPedidoId := 2 }

/-- Test fixture for the C1 counterexample: a completed-payment
notification for session "cs_9", decoding to user 1 and cart {1: 1}. -/
def cxEvento : StripeEvent :=
  { type := "checkout.session.completed",
    session := { id := "cs_9", amount_total := 1000,
                 metadata := { user_id := 1, carrito := dumpsCart [("1", 1)] } } }

/-- Counterexample to C1 as stated: in `cxStore` an Order with the
notification's session id already exists, the decoded user exists and the
metadata decodes fine, yet reprocessing the notification is answered with
the server error 500 (the `NameError` at the unimported `User` name), not
with success. -/
theorem webhook_duplicado_no_exito_cx :
    (cxStore.pedidos.any fun p => p.id_transaccion_pago == cxEvento.session.id) = true
    ∧ cxEvento.session.metadata.user_id ∈ cxStore.usuarios
    ∧ decodeMetadata cxEvento.session.metadata = some (1, [("1", 1)])
    ∧ (stripe_webhook cxStore (.ok cxEvento)).1 = Status.s500
    ∧ ¬ (stripe_webhook cxStore (.ok cxEvento)).1 = Status.s200 := by
  decide

/-- C1 (amended): processing a completed-payment notification whose
external transaction id already matches an existing Order creates no new
Order and no new OrderLines and decrements no product's stock — the store
is returned unchanged — but the handler responds with a server error (the
`NameError` at views.py line 220), not success; delivering the same
completed-payment notification twice sequentially likewise creates
nothing: the number of Orders carrying that transaction id is the same
afterwards as before both deliveries. -/
theorem webhook_entrega_duplicada (s : Store) (ev : StripeEvent)
    (hev : ev.type = "checkout.session.completed") :
    stripe_webhook s (.ok ev) = (.s500, s)
    ∧ (stripe_webhook s (.ok ev)).1 ≠ Status.s200
    ∧ ((stripe_webhook (stripe_webhook s (.ok ev)).2 (.ok ev)).2.pedidos.countP
        (fun p => p.id_transaccion_pago == ev.session.id))
      = s.pedidos.countP (fun p => p.id_transaccion_pago == ev.session.id) := by
  have h := stripe_webhook_completed_500 s ev hev
  have h2 : (stripe_webhook s (.ok ev)).2 = s := by rw [h]
  refine ⟨h, by simp [h], ?_⟩
  rw [h2, h2]

/-- Test fixture for the C1 witness: a store whose only Order carries
session id "cs_w1" and belongs to user 7, who exists. -/
def dupStore : Store :=
  { usuarios := [7], productos := [prodA],
    pedidos := [{ id := 1, usuario := 7, estado := "En preparación", total := 20,
                  direccion_envio := "", id_transaccion_pago := "cs_w1" }],
    detalles := [], nextPedidoId := 2 }

/-- Test fixture for the C1 witness: the completed-payment notification
for session "cs_w1". -/
def dupEvento : StripeEvent :=
  { type := "checkout.session.completed",
    session := { id := "cs_w1", amount_total := 2000,
                 metadata := { user_id := 7, carrito := dumpsCart [("1", 2)] } } }

/-- Concrete instance of C1 (amended): redelivering the "cs_w1"
notification to `dupStore` mutates nothing, is not acknowledged with
success, and leaves the count of Orders with that id unchanged. -/
theorem webhook_entrega_duplicada_witness :
    stripe_webhook dupStore (.ok dupEvento) = (.s500, dupStore)
    ∧ (stripe_webhook dupStore (.ok dupEvento)).1 ≠ Status.s200
    ∧ ((stripe_webhook (stripe_webhook dupStore (.ok dupEvento)).2
          (.ok dupEvento)).2.pedidos.countP
        (fun p => p.id_transaccion_pago == dupEvento.session.id))
      = dupStore.pedidos.countP
          (fun p => p.id_transaccion_pago == dupEvento.session.id) :=
  webhook_entrega_duplicada dupStore dupEvento rfl

/-- Test fixture for C2: a store with user 1 and only product 1 (price
10, stock 5). -/
def sFalla : Store :=
  { usuarios := [1], productos := [prodA], pedidos := [], detalles := [],
    nextPedidoId := 1 }

/-- Test fixture for C2: a completed-payment notification whose decoded
cart references product 1 (quantity 2) and the non-existent product 2
(quantity 1). -/
def evFalla : StripeEvent :=
  { type := "checkout.session.completed",
    session := { id := "cs_2", amount_total := 4000,
                 metadata := { user_id := 1,
                               carrito := dumpsCart [("1", 2), ("2", 1)] } } }

/-- C2: from a faulting materialization attempt nothing persists: no
Order, no OrderLine, and no stock mutation.  On this code every
completed-payment notification faults — at the user-resolution line
(views.py 220, `NameError`, `User` unimported), which runs before any
write — so the store is returned exactly unchanged; in particular a cart
referencing a vanished product leaves no partial state. -/
theorem webhook_fallo_sin_estado_parcial (s : Store) (ev : StripeEvent)
    (hev : ev.type = "checkout.session.completed") :
    (stripe_webhook s (.ok ev)).2.pedidos = s.pedidos
    ∧ (stripe_webhook s (.ok ev)).2.detalles = s.detalles
    ∧ (stripe_webhook s (.ok ev)).2.productos = s.productos := by
  rw [stripe_webhook_completed_500 s ev hev]
  exact ⟨rfl, rfl, rfl⟩

/-- Concrete instance of C2: the notification whose cart references the
missing product 2 leaves orders, order lines and catalog exactly as they
were. -/
theorem webhook_fallo_sin_estado_parcial_witness :
    (stripe_webhook sFalla (.ok evFalla)).2.pedidos = sFalla.pedidos
    ∧ (stripe_webhook sFalla (.ok evFalla)).2.detalles = sFalla.detalles
    ∧ (stripe_webhook sFalla (.ok evFalla)).2.productos = sFalla.productos :=
  webhook_fallo_sin_estado_parcial sFalla evFalla rfl

/-- Test fixture for C4: user 7 with products 1 (price 10, stock 5) and 2
(price 20, stock 3) and no existing Order. -/
def sMaterial : Store :=
  { usuarios := [7], productos := [prodA, prodB], pedidos := [], detalles := [],
    nextPedidoId := 1 }

/-- Test fixture for C4: the verified completed notification "cs_test"
for 4000 cents whose decoded cart is {1: 2, 2: 1}. -/
def evMaterial : StripeEvent :=
  { type := "checkout.session.completed",
    session := { id := "cs_test", amount_total := 4000,
                 metadata := { user_id := 7,
                               carrito := dumpsCart [("1", 2), ("2", 1)] } } }

/-- Counterexample to C4 as stated: the notification is verified and
filtered, no Order with its session id exists, its decoded cart
references only existing products and the decoded user exists — yet no
Order is created at all: the handler answers 500 with the store
unchanged, because the user-resolution line faults before the idempotency
check and the materialization code is unreachable. -/
theorem webhook_materializa_cx :
    evMaterial.session.metadata.user_id ∈ sMaterial.usuarios
    ∧ decodeMetadata evMaterial.session.metadata = some (7, [("1", 2), ("2", 1)])
    ∧ (sMaterial.pedidos.any fun p => p.id_transaccion_pago == evMaterial.session.id)
        = false
    ∧ (findProducto sMaterial.productos "1").isSome
    ∧ (findProducto sMaterial.productos "2").isSome
    ∧ stripe_webhook sMaterial (.ok evMaterial) = (Status.s500, sMaterial)
    ∧ (stripe_webhook sMaterial (.ok evMaterial)).2.pedidos.length = 0 := by
  decide

/-- C4 (amended): a completed-payment notification that passes
verification and filtering, whose session id matches no existing Order,
creates nothing at all — no Order, no OrderLine, no stock change: the
handler raises `NameError` at the user-resolution line (views.py 220,
`User` unimported) and responds with a server error before the
idempotency check, so materialization never runs. -/
theorem webhook_materializacion_inalcanzable (s : Store) (ev : StripeEvent)
    (hev : ev.type = "checkout.session.completed")
    (hnew : ∀ p ∈ s.pedidos, p.id_transaccion_pago ≠ ev.session.id) :
    stripe_webhook s (.ok ev) = (.s500, s)
    ∧ ∀ p ∈ (stripe_webhook s (.ok ev)).2.pedidos,
        p.id_transaccion_pago ≠ ev.session.id := by
  have h := stripe_webhook_completed_500 s ev hev
  refine ⟨h, ?_⟩
  rw [h]
  exact hnew

/-- Concrete instance of C4 (amended): the §8 scenario input (cart
{1: 2, 2: 1}, both products in stock, fresh session id) produces no Order
and leaves the store unchanged. -/
theorem webhook_materializacion_inalcanzable_witness :
    stripe_webhook sMaterial (.ok evMaterial) = (.s500, sMaterial) :=
  (webhook_materializacion_inalcanzable sMaterial evMaterial rfl (by decide)).1

/-- C5: stock never goes negative after any committed operation, because
no operation mutates stock at all: the cart views write only the session
(their types do not touch the `Store`), checkout initiation performs no
write, and the webhook returns the store unchanged on every path — the
only stock-writing code (views.py 245-247) sits behind the faulting
user-resolution line 220 and is unreachable. -/
theorem stock_nunca_negativo (s : Store) (v : VerifyOutcome) (carrito : Carrito)
    (userId : Nat) (gw : GatewayOutcome)
    (hpos : ∀ p ∈ s.productos, 0 ≤ p.stock) :
    (stripe_webhook s v).2 = s
    ∧ (∀ p ∈ (stripe_webhook s v).2.productos, 0 ≤ p.stock)
    ∧ (crear_sesion_pago s carrito userId gw).2.2.1 = s
    ∧ (∀ p ∈ (crear_sesion_pago s carrito userId gw).2.2.1.productos, 0 ≤ p.stock) := by
  have h1 := stripe_webhook_store s v
  have h2 := crear_sesion_pago_store s carrito userId gw
  exact ⟨h1, by rw [h1]; exact hpos, h2, by rw [h2]; exact hpos⟩

/-- Concrete instance of C5: a completed notification for two units of
the stock-5 product, and a checkout initiation, both leave the store (and
hence every stock) unchanged. -/
theorem stock_nunca_negativo_witness :
    (stripe_webhook
        { usuarios := [1], productos := [prodA], pedidos := [], detalles := [],
          nextPedidoId := 1 }
        (.ok { type := "checkout.session.completed",
               session := { id := "cs_s5", amount_total := 2000,
                            metadata := { user_id := 1,
                                          carrito := dumpsCart [("1", 2)] } } })).2
      = { usuarios := [1], productos := [prodA], pedidos := [], detalles := [],
          nextPedidoId := 1 }
    ∧ (crear_sesion_pago
        { usuarios := [1], productos := [prodA], pedidos := [], detalles := [],
          nextPedidoId := 1 } [("1", 2)] 1 (.ok "u")).2.2.1
      = { usuarios := [1], productos := [prodA], pedidos := [], detalles := [],
          nextPedidoId := 1 } :=
  ⟨(stock_nunca_negativo _ _ [("1", 2)] 1 (.ok "u") (by decide)).1,
   (stock_nunca_negativo _
      (.ok { type := "checkout.session.completed",
             session := { id := "cs_s5", amount_total := 2000,
                          metadata := { user_id := 1,
                                        carrito := dumpsCart [("1", 2)] } } })
      [("1", 2)] 1 (.ok "u") (by decide)).2.2.1⟩

/-- C3 fails on the code: `id_transaccion_pago` carries no store-level
uniqueness constraint (models.py line 134), so inserting a second Pedido
with the session id "cs_3" of an existing one succeeds and leaves two
Orders sharing that external id. -/
theorem pedido_duplicado_id_transaccion :
    ((createPedido
        { usuarios := [1], productos := [], detalles := [], nextPedidoId := 2,
          pedidos := [{ id := 1, usuario := 1, estado := "En preparación", total := 40,
                        direccion_envio := "", id_transaccion_pago := "cs_3" }] }
        1 40 "En preparación" "cs_3").2.pedidos.countP
      (fun p => p.id_transaccion_pago == "cs_3")) = 2 := by
  decide

end Tienda
